import Mathlib

/-!
# TicketDuck — verification of the session state machine and backend client

Shallow embedding of `src/bubble.go` (package `main` of the TicketDuck /
TicketSummaryTool terminal application).  Pure Go functions become Lean
functions; the mutable `model` struct becomes an explicit `Model` record
threaded through the transition functions; external collaborators
(Glamour markdown rendering, lipgloss styling, the network layer behind
each LLM client, the bubbles `textinput` component) are abstracted as an
`Env` record of functions.  Machine integers (`int`) are embedded as `Int`.

The concurrency in `handleFormCompletion` (the request goroutine, the
spinner goroutine and the `done` channel) synchronises back into the
caller before the transition completes, so its net effect on the model is
sequential and is embedded as such.
-/

namespace TicketDuck

/-! ## String helpers mirroring Go's `strings` package -/

/-- Helper for substring search on character lists: does `sub` occur as a
contiguous run inside the second list?  (Semantics of Go `strings.Contains`.) -/
def hasSub (sub : List Char) : List Char → Bool
  | [] => sub.isPrefixOf []
  | c :: t => sub.isPrefixOf (c :: t) || hasSub sub t

/-- Go `strings.Contains s sub`. -/
def containsSubstr (s sub : String) : Bool :=
  hasSub sub.toList s.toList

/-- Go `strings.HasSuffix s suf`. -/
def hasSuffixStr (s suf : String) : Bool :=
  suf.toList.isSuffixOf s.toList

/-- Go `strings.TrimSuffix s "/"`: removes one trailing `/` if present. -/
def trimSuffixSlash (s : String) : String :=
  if hasSuffixStr s "/" then s.dropRight 1 else s

/-- Go `strings.TrimSpace`: trim whitespace from both ends. -/
def trimSpace (s : String) : String :=
  (((s.toList.dropWhile Char.isWhitespace).reverse.dropWhile Char.isWhitespace).reverse).asString

/-- Go `strings.HasPrefix s pre`. -/
def startsWithStr (s pre : String) : Bool :=
  pre.toList.isPrefixOf s.toList

/-- Splitting a character list at every newline; the pieces of Go
`strings.Split(s, "\n")` for the one-character separator. -/
def splitLines : List Char → List (List Char)
  | [] => [[]]
  | c :: t =>
      if c = '\n' then [] :: splitLines t
      else
        match splitLines t with
        | [] => [[c]]
        | h :: r => (c :: h) :: r

/-- Go `strings.Split(s, "\n")`. -/
def splitLinesStr (s : String) : List String :=
  (splitLines s.toList).map List.asString

/-- Go `len(strings.Split(s, "\n"))`, the `countLines` helper of the source. -/
def countLines (s : String) : Nat :=
  (splitLinesStr s).length

/-! ## Self-hosted (local) client endpoint resolution

Embeds the URL-normalisation logic at the top of `LocalLLMClient.Complete`
(src/bubble.go lines 1655–1692): strip one trailing slash, detect the
well-known local default, otherwise append the OpenAI-compatible path
suffix unless one of three existing-suffix forms is already present. -/

/-- The final endpoint URL computed by `LocalLLMClient.Complete` from the
configured base address. -/
def localResolveBaseURL (base : String) : String :=
  let b := trimSuffixSlash base
  if containsSubstr b "localhost:11434" || containsSubstr b "127.0.0.1:11434" then
    b ++ "/api/chat"
  else if containsSubstr b "/v1/chat/completions" then
    b
  else if containsSubstr b "/chat/completions" then
    b
  else if hasSuffixStr b "/v1" then
    b ++ "/chat/completions"
  else
    b ++ "/v1/chat/completions"

/-- After computing the endpoint URL, `LocalLLMClient.Complete` chooses the
wire dialect by testing `strings.Contains(baseURL, "/api/chat")` on the
*final* URL: `true` selects the native (Ollama) chat request body, `false`
the OpenAI-compatible chat-completions request. -/
def localUsesNativeDialect (base : String) : Bool :=
  containsSubstr (localResolveBaseURL base) "/api/chat"

/-! ## Configuration data model (`ModelConfig`, `Config`) -/

/-- Go `ModelConfig`: provider family, model identifier, credential and
base address.  `Provider` is a string type in the source (`"openai"`,
`"claude"`, `"local"`), kept as `String` here. -/
structure ModelConfig where
  provider : String
  modelName : String
  apiKey : String
  apiBaseURL : String
deriving DecidableEq, Repr

/-- Go zero value of `ModelConfig`, produced by a map lookup miss. -/
def ModelConfig.zero : ModelConfig := ⟨"", "", "", ""⟩

/-- Go `Config`: the active model key and the keyed map of model configs
(embedded as an association list). -/
structure Config where
  activeModel : String
  models : List (String × ModelConfig)
deriving DecidableEq, Repr

/-- Go `m.config.Models[k]`: map indexing, yielding the zero value when the
key is absent. -/
def lookupModel (c : Config) (k : String) : ModelConfig :=
  match c.models.find? (fun p => p.1 == k) with
  | some p => p.2
  | none => ModelConfig.zero

/-- Go `m.config.Models[k] = v`: map assignment. -/
def setModelCfg (models : List (String × ModelConfig)) (k : String) (v : ModelConfig) :
    List (String × ModelConfig) :=
  if models.any (fun p => p.1 == k) then
    models.map (fun p => if p.1 == k then (k, v) else p)
  else
    models ++ [(k, v)]

/-- The condition checked by `handleFormCompletion` and
`updateModelSelectMode`: the active backend configuration is missing its
required credential (hosted families) or base address (self-hosted). -/
def missingCredential (cfg : ModelConfig) : Prop :=
  (cfg.provider ≠ "local" ∧ cfg.apiKey = "") ∨
  (cfg.provider = "local" ∧ cfg.apiBaseURL = "")

instance (cfg : ModelConfig) : Decidable (missingCredential cfg) := by
  unfold missingCredential; infer_instance

/-! ## The document-type catalog (`formType`, `formTypes`) -/

/-- Go `formType`: a name, an ordered question list and the generation
instruction sent with the assembled document. -/
structure FormType where
  name : String
  questions : List String
  prompt : String
deriving DecidableEq, Repr

/-- The fixed catalog `formTypes` of src/bubble.go (prompts elided to their
identifying head; no claim inspects the prompt text). -/
def goFormTypes : List FormType :=
  [ { name := "Incident Response",
      questions :=
        [ "What happened?",
          "What did you do?",
          "Why did you do it?",
          "Did it work? If not, what was the result?",
          "What did you learn?" ],
      prompt := "Using the following text, craft an informative and detailed work note for an incident response. The output of your response should be a between 2 sentences and several paragraphs, depending on the amount of context offered. It does not need to restate the rubric questions. Ensure clarity and conciseness, without referring explicitly to 'the incident response'" },
    { name := "Pull Request/Commit Message",
      questions :=
        [ "What did you do?",
          "Why did you do it?",
          "What did you learn?" ],
      prompt := "Using the following text, craft an informative and detailed title and description for a commit message or pull request. The output of your response should be a between 2 sentences and several paragraphs, depending on the amount of context offered. It does not need to restate the rubric questions. Ensure clarity and conciseness, without referring explicitly to 'the pull request' or 'the commit message'" },
    { name := "Service Request",
      questions :=
        [ "What do you want?",
          "Why do you want it?",
          "How do you want it?",
          "What will you do with it?" ],
      prompt := "Using the following text, craft an informative and detailed message for a service request that is being made of a colleague. The output of your response should be a between 2 sentences and several paragraphs, depending on the amount of context offered. It does not need to restate the rubric questions. Ensure clarity and conciseness, without referring explicitly to 'the service request'" },
    { name := "Development ticket",
      questions :=
        [ "Is this a feature, bug, or chore?",
          "What is the current behavior?",
          "How do you want to change, modify, or add behavior?",
          "Why do you want this change? What are the benefits?",
          "What are the acceptance criteria for this change?" ],
      prompt := "Your task is to use the following text to create a detailed and informative ticket for a development task. The output of your response should be a between 2 sentences and several paragraphs, depending on the amount of context offered. It does not need to restate the rubric questions. Ensure clarity and conciseness, without referring explicitly to 'the ticket' or 'the development task'" } ]

/-- Go `m.formTypes[i]` (Int index; in-range use matches the source, which
would panic out of range). -/
def getFormType (l : List FormType) (i : Int) : FormType :=
  (l.get? i.toNat).getD ⟨"", [], ""⟩

/-- Go `m.modelKeys[i]`. -/
def getKeyAt (l : List String) (i : Int) : String :=
  (l.get? i.toNat).getD ""

/-! ## Modes, keys and messages -/

/-- Go `mode` enumeration.  `selectionMode` is the spec's
`SelectDocumentType`, `questionMode` is `AnswerQuestions`, `displayMode` is
`ShowResult`, `apiKeyInputMode` is `ConfigureBackend`, `modelSelectMode` is
`PickBackend`, `styleSelectMode` is `PickTheme`. -/
inductive Mode where
  | selectionMode
  | questionMode
  | displayMode
  | apiKeyInputMode
  | modelSelectMode
  | styleSelectMode
deriving DecidableEq, Repr

/-- Terminal key events, mirroring the `tea.KeyMsg` values the source
distinguishes (`runes` carries printable keys such as "q", "k", "g"). -/
inductive Key where
  | runes (s : String)
  | space
  | enter
  | esc
  | ctrlC
  | ctrlS
  | ctrlT
  | ctrlY
  | up
  | down
  | backspace
  | delete
  | pgUp
  | pgDown
deriving DecidableEq, Repr

/-- `tea.KeyMsg.String()`, as used by the `switch msg.String()` statements. -/
def keyString : Key → String
  | .runes s => s
  | .space => " "
  | .enter => "enter"
  | .esc => "esc"
  | .ctrlC => "ctrl+c"
  | .ctrlS => "ctrl+s"
  | .ctrlT => "ctrl+t"
  | .ctrlY => "ctrl+y"
  | .up => "up"
  | .down => "down"
  | .backspace => "backspace"
  | .delete => "delete"
  | .pgUp => "pgup"
  | .pgDown => "pgdown"

/-- Messages handled by `Update`: key events and terminal resizes. -/
inductive Msg where
  | key (k : Key)
  | windowSize (w h : Int)

/-- The `tea.Cmd` outcomes the embedding tracks: no command, or `tea.Quit`. -/
inductive Cmd where
  | none
  | quit
deriving DecidableEq, Repr

/-! ## The session state (`model`) -/

/-- The viewport sub-state (`viewport.Model` fields the source touches),
plus a `lastRender` record of the most recent call into the markdown
renderer: the text handed over and the word-wrap argument passed to
Glamour (`glamour.WithWordWrap(len(md))` in the source). -/
structure Viewport where
  width : Int
  height : Int
  yOffset : Int
  content : String
  lastRender : Option (String × Nat)
deriving DecidableEq, Repr

/-- Theme catalog entry (colours are lipgloss data; only the entry's
identity matters to the state machine). -/
structure StyleTheme where
  themeName : String
deriving DecidableEq, Repr

/-- Go `model`: the single mutable session state record. -/
structure Model where
  currentMode : Mode
  formTypes : List FormType
  cursor : Int
  selectedIndex : Int
  currentForm : FormType
  answers : List String
  currentQuestion : Nat
  inputString : String
  viewport : Viewport
  gptRawOutput : String
  content : String
  gPressed : Bool
  apiKeyInput : String
  apiBaseInput : String
  modelNameInput : String
  focusedInput : Nat
  saveConfig : Bool
  config : Config
  modelCursor : Int
  modelKeys : List String
  selectedModel : String
  styleThemeIndex : Int
  styleThemes : List StyleTheme
  width : Int
deriving DecidableEq, Repr

/-- External collaborators, abstracted: the Glamour renderer
(text and word-wrap width to rendered text), the two lipgloss line styles
applied by `renderMarkdownToViewport`, the LLM round trip behind
`processFormWithLLM` (config and combined prompt to text or error), and the
bubbles `textinput` value update. -/
structure Env where
  glamourRender : String → Nat → String
  headerStyle : String → String
  baseStyle : String → String
  llm : ModelConfig → String → Except String String
  tiUpdate : String → Key → String

/-- One step of the program: the next model, the command returned to
bubbletea, and whether this step launched an LLM request (the `go
makeLLMRequest` line of `handleFormCompletion`). -/
structure Step where
  model : Model
  cmd : Cmd
  requested : Bool

/-- Wrap a plain `(model, cmd)` pair as a step that launched no request. -/
def stepOf (p : Model × Cmd) : Step := ⟨p.1, p.2, false⟩

/-! ## Document builder (`buildSelectedMarkdown`) -/

/-- One loop iteration of `buildSelectedMarkdown`: the numbered sub-heading
for question `q` at index `i`, followed by the corresponding answer when
the index is within the answer list (source lines 1310–1315). -/
def sectionBlock (answers : List String) (i : Nat) (q : String) : String :=
  "## " ++ toString (i + 1) ++ ". " ++ q ++ "\n\n" ++
    (if i < answers.length then answers.getD i "" ++ "\n\n" else "")

/-- The `for i, question := range questions` loop of
`buildSelectedMarkdown`, accumulating into the string builder. -/
def buildMarkdownLoop (answers : List String) : Nat → List String → String
  | _, [] => ""
  | i, q :: qs => sectionBlock answers i q ++ buildMarkdownLoop answers (i + 1) qs

/-- The document produced by `buildSelectedMarkdown` for a document type
and an answer list: the `# name` heading followed by the question loop. -/
def buildDoc (ft : FormType) (answers : List String) : String :=
  "# " ++ ft.name ++ "\n\n" ++ buildMarkdownLoop answers 0 ft.questions

/-- Go `buildSelectedMarkdown(m)`. -/
def buildSelectedMarkdown (m : Model) : String :=
  buildDoc m.currentForm m.answers

/-! ## Markdown rendering into the viewport (`renderMarkdownToViewport`) -/

/-- Go `strings.TrimRight(s, "\n")`. -/
def trimRightNewlines (s : String) : String :=
  ((s.toList.reverse.dropWhile (fun c => c = '\n')).reverse).asString

/-- The per-line styling applied by `renderMarkdownToViewport` after the
Glamour pass: header lines through the bold header style, non-blank lines
through the base style. -/
def styleLine (env : Env) (line : String) : String :=
  if startsWithStr line "# " then env.headerStyle line
  else if startsWithStr line "## " then env.headerStyle line
  else if startsWithStr line "### " then env.headerStyle line
  else if trimSpace line ≠ "" then env.baseStyle line
  else line

/-- Go `renderMarkdownToViewport(md, &vp, theme)` (success path; a failing
renderer is an external-collaborator error that the callers only log).
Note the word-wrap argument passed to Glamour is `len(md)` — the length of
the markdown text, not the viewport width. -/
def renderMarkdownToViewport (env : Env) (md : String) (vp : Viewport) : Viewport :=
  let rendered := env.glamourRender md md.length
  let lines := splitLinesStr rendered
  let styled := lines.map (styleLine env)
  let styledContent := trimRightNewlines (String.intercalate "\n" styled) ++ "\n"
  { vp with content := styledContent, lastRender := some (md, md.length) }

/-! ## Form completion (`handleFormCompletion` and `makeLLMRequest`)

The goroutine/spinner/channel choreography resolves before the transition
returns, so the embedding is its sequential net effect.  The `requested`
flag of the resulting `Step` records whether the LLM request goroutine was
launched. -/

def handleFormCompletion (env : Env) (m : Model) : Step :=
  let md := buildSelectedMarkdown m
  let m := { m with viewport := renderMarkdownToViewport env md m.viewport, content := md }
  let activeModelConfig := lookupModel m.config m.config.activeModel
  if missingCredential activeModelConfig then
    ⟨{ m with currentMode := .apiKeyInputMode }, .none, false⟩
  else
    let processingMsg :=
      "## Processing with " ++ m.config.activeModel ++ "\n\nGenerating summary..."
    let m := { m with viewport := renderMarkdownToViewport env processingMsg m.viewport }
    -- makeLLMRequest, synchronised through the `done` channel:
    let combinedPrompt := m.currentForm.prompt ++ "\n\n" ++ md
    let m :=
      match env.llm activeModelConfig combinedPrompt with
      | .ok resp =>
          let appendedContent := md ++ "\n## Ticket Summary\n\n" ++ resp
          { m with gptRawOutput := resp,
                   viewport := renderMarkdownToViewport env appendedContent m.viewport,
                   content := appendedContent }
      | .error e =>
          let errorMsg :=
            "## Error\n\nFailed to get response from " ++ m.config.activeModel ++
              ": " ++ e ++ "\n\nCheck the log file for details."
          { m with viewport := renderMarkdownToViewport env errorMsg m.viewport }
    ⟨{ m with currentMode := .displayMode }, .none, true⟩

/-! ## Per-mode input handlers -/

/-- Go `updateSelectionMode` (the `SelectDocumentType` screen). -/
def updateSelectionMode (m : Model) (k : Key) : Model × Cmd :=
  match keyString k with
  | "q" => (m, .quit)
  | "up" | "k" =>
      (if m.cursor > 0 then { m with cursor := m.cursor - 1 } else m, .none)
  | "down" | "j" =>
      (if m.cursor < (m.formTypes.length : Int) - 1 then
        { m with cursor := m.cursor + 1 }
      else m, .none)
  | " " | "enter" =>
      if m.currentMode = .selectionMode then
        if m.selectedIndex = m.cursor then
          ({ m with selectedIndex := -1 }, .none)
        else
          let si := m.cursor
          let cf := getFormType m.formTypes si
          ({ m with selectedIndex := si,
                    currentForm := cf,
                    currentMode := .questionMode,
                    answers := List.replicate cf.questions.length "",
                    currentQuestion := 0 }, .none)
      else (m, .none)
  | _ => (m, .none)

/-- Go `updateQuestionMode` (the `AnswerQuestions` screen; switches on the
key *type*). -/
def updateQuestionMode (env : Env) (m : Model) (k : Key) : Step :=
  match k with
  | .esc | .ctrlC => ⟨m, .quit, false⟩
  | .enter =>
      let m := { m with answers := m.answers.set m.currentQuestion (trimSpace m.inputString),
                        inputString := "" }
      if m.currentQuestion < m.currentForm.questions.length - 1 then
        ⟨{ m with currentQuestion := m.currentQuestion + 1 }, .none, false⟩
      else
        handleFormCompletion env m
  | .ctrlS =>
      let m := { m with answers := m.answers.set m.currentQuestion "", inputString := "" }
      if m.currentQuestion < m.currentForm.questions.length - 1 then
        ⟨{ m with currentQuestion := m.currentQuestion + 1 }, .none, false⟩
      else
        handleFormCompletion env m
  | .backspace | .delete =>
      ⟨if m.inputString.length > 0 then
        { m with inputString := m.inputString.dropRight 1 }
      else m, .none, false⟩
  | .runes s => ⟨{ m with inputString := m.inputString ++ s }, .none, false⟩
  | .space => ⟨{ m with inputString := m.inputString ++ " " }, .none, false⟩
  | _ => ⟨m, .none, false⟩

/-- Go `updateDisplayMode` (the `ShowResult` screen). -/
def updateDisplayMode (m : Model) (k : Key) : Model × Cmd :=
  match keyString k with
  | "q" => (m, .quit)
  | "up" | "k" =>
      (if m.viewport.yOffset > 0 then
        { m with viewport := { m.viewport with yOffset := m.viewport.yOffset - 1 } }
      else m, .none)
  | "down" | "j" =>
      let totalLines : Int := countLines m.content
      let maxYOffset := totalLines - m.viewport.height
      (if m.viewport.yOffset < maxYOffset then
        { m with viewport := { m.viewport with yOffset := m.viewport.yOffset + 1 } }
      else m, .none)
  | "pgup" =>
      let y := m.viewport.yOffset - m.viewport.height
      let y := if y < 0 then 0 else y
      ({ m with viewport := { m.viewport with yOffset := y } }, .none)
  | "pgdown" =>
      let totalLines : Int := countLines m.content
      let maxYOffset := totalLines - m.viewport.height
      let y := m.viewport.yOffset + m.viewport.height
      let y := if y > maxYOffset then maxYOffset else y
      ({ m with viewport := { m.viewport with yOffset := y } }, .none)
  | "G" =>
      let totalLines : Int := countLines m.content
      let y := totalLines - m.viewport.height
      let y := if y < 0 then 0 else y
      ({ m with viewport := { m.viewport with yOffset := y }, gPressed := false }, .none)
  | "g" =>
      if m.gPressed then
        ({ m with viewport := { m.viewport with yOffset := 0 }, gPressed := false }, .none)
      else
        ({ m with gPressed := true }, .none)
  | "ctrl+y" =>
      -- clipboard.WriteAll(stripansi.Strip(m.gptRawOutput)): external, no state change
      (m, .none)
  | _ => (m, .none)

/-- Go `updateModelSelectMode` (the `PickBackend` screen). -/
def updateModelSelectMode (m : Model) (k : Key) : Model × Cmd :=
  match keyString k with
  | "q" => (m, .quit)
  | "up" | "k" =>
      (if m.modelCursor > 0 then { m with modelCursor := m.modelCursor - 1 } else m, .none)
  | "down" | "j" =>
      (if m.modelCursor < (m.modelKeys.length : Int) - 1 then
        { m with modelCursor := m.modelCursor + 1 }
      else m, .none)
  | " " | "enter" =>
      let sel := getKeyAt m.modelKeys m.modelCursor
      let m := { m with selectedModel := sel,
                        config := { m.config with activeModel := sel } }
      -- saveConfig(m.config): external persistence, errors only logged
      let selectedModelConfig := lookupModel m.config m.selectedModel
      if missingCredential selectedModelConfig then
        ({ m with currentMode := .apiKeyInputMode }, .none)
      else
        ({ m with currentMode := .selectionMode }, .none)
  | "c" =>
      let sel := getKeyAt m.modelKeys m.modelCursor
      ({ m with selectedModel := sel,
                config := { m.config with activeModel := sel },
                currentMode := .apiKeyInputMode }, .none)
  | _ => (m, .none)

/-- Go `updateStyleSelectMode` (the `PickTheme` screen; applying a theme
rebuilds the lipgloss styles, which live outside the embedded state). -/
def updateStyleSelectMode (m : Model) (k : Key) : Model × Cmd :=
  match keyString k with
  | "up" | "k" =>
      (if m.styleThemeIndex > 0 then
        { m with styleThemeIndex := m.styleThemeIndex - 1 }
      else m, .none)
  | "down" | "j" =>
      (if m.styleThemeIndex < (m.styleThemes.length : Int) - 1 then
        { m with styleThemeIndex := m.styleThemeIndex + 1 }
      else m, .none)
  | "enter" => ({ m with currentMode := .selectionMode }, .none)
  | "esc" => ({ m with currentMode := .selectionMode }, .none)
  | _ => (m, .none)

/-- Go `updateAPIKeyInputMode` (the `ConfigureBackend` screen). -/
def updateAPIKeyInputMode (env : Env) (m : Model) (k : Key) : Model × Cmd :=
  let modelConfig := lookupModel m.config m.selectedModel
  let isLocalModel := modelConfig.provider = "local"
  match k with
  | .ctrlC | .esc => (m, .quit)
  | .enter =>
      let m :=
        if isLocalModel then
          let baseURL := trimSpace m.apiBaseInput
          let baseURL := if baseURL = "" then "http://localhost:11434" else baseURL
          let modelName := trimSpace m.modelNameInput
          let modelName := if modelName = "" then "llama3" else modelName
          { m with config :=
              { m.config with models := (setModelCfg m.config.models m.selectedModel
                  ⟨modelConfig.provider, modelName, "", baseURL⟩) } }
        else
          let apiKey := trimSpace m.apiKeyInput
          let modelName := trimSpace m.modelNameInput
          let modelName :=
            if modelName = "" then
              if modelConfig.provider = "openai" then "gpt-3.5-turbo"
              else if modelConfig.provider = "claude" then "claude-3-sonnet-20240229"
              else modelName
            else modelName
          { m with config :=
              { m.config with models := (setModelCfg m.config.models m.selectedModel
                  ⟨modelConfig.provider, modelName, apiKey, ""⟩) } }
      -- saveConfig when the checkbox is set: external persistence
      ({ m with currentMode := .selectionMode }, .none)
  | .up | .down =>
      ({ m with focusedInput := (m.focusedInput + 1) % 3 }, .none)
  | .space =>
      (if m.focusedInput = 2 then { m with saveConfig := !m.saveConfig } else m, .none)
  | _ =>
      if isLocalModel then
        if m.focusedInput = 0 then
          ({ m with apiBaseInput := env.tiUpdate m.apiBaseInput k }, .none)
        else if m.focusedInput = 1 then
          ({ m with modelNameInput := env.tiUpdate m.modelNameInput k }, .none)
        else (m, .none)
      else
        if m.focusedInput = 0 then
          ({ m with apiKeyInput := env.tiUpdate m.apiKeyInput k }, .none)
        else if m.focusedInput = 1 then
          ({ m with modelNameInput := env.tiUpdate m.modelNameInput k }, .none)
        else (m, .none)

/-! ## The top-level `Update` function -/

/-- The `tea.WindowSizeMsg` branch of `Update`: recompute viewport
dimensions from the terminal size minus fixed margins, clamp to the
minimums, and re-render the stored document only in display mode. -/
def resizeUpdate (env : Env) (m : Model) (termWidth termHeight : Int) : Model :=
  let width := termWidth - 4
  let height := termHeight - 8
  let width := if width < 40 then 40 else width
  let height := if height < 10 then 10 else height
  let m := { m with viewport := { m.viewport with width := width, height := height } }
  if m.currentMode = .displayMode then
    { m with viewport := renderMarkdownToViewport env m.content m.viewport }
  else m

/-- Go `model.Update`: global key handling (quit, escape-to-menu, backend
and theme shortcuts) followed by dispatch to the active mode's handler. -/
def update (env : Env) (m : Model) (msg : Msg) : Step :=
  match msg with
  | .windowSize w h => ⟨resizeUpdate env m w h, .none, false⟩
  | .key k =>
      if keyString k = "q" then ⟨m, .quit, false⟩
      else if keyString k = "esc" ∧ m.currentMode ≠ .selectionMode then
        ⟨{ m with currentMode := .selectionMode }, .none, false⟩
      else if keyString k = "~" then
        ⟨{ m with currentMode := .modelSelectMode }, .none, false⟩
      else if keyString k = "ctrl+t" then
        ⟨{ m with currentMode := .styleSelectMode }, .none, false⟩
      else
        match m.currentMode with
        | .selectionMode => stepOf (updateSelectionMode m k)
        | .questionMode => updateQuestionMode env m k
        | .displayMode => stepOf (updateDisplayMode m k)
        | .apiKeyInputMode => stepOf (updateAPIKeyInputMode env m k)
        | .modelSelectMode => stepOf (updateModelSelectMode m k)
        | .styleSelectMode => stepOf (updateStyleSelectMode m k)

/-- Apply a sequence of key events through `update`. -/
def applyKeys (env : Env) (m : Model) (ks : List Key) : Model :=
  ks.foldl (fun acc k => (update env acc (.key k)).model) m

/-- The navigation commands of the claim about list cursors: arrow keys and
their vi-style equivalents. -/
def isNavKey (k : Key) : Bool :=
  match k with
  | .up | .down => true
  | .runes s => s = "k" || s = "j"
  | _ => false

/-! ## Concrete fixtures for witnesses and counterexamples -/

/-- A concrete environment: the identity renderer and styles, an LLM stub
that fails (no network), and an inert text-input update. -/
def envT : Env :=
  { glamourRender := fun s _ => s
    headerStyle := fun s => s
    baseStyle := fun s => s
    llm := fun _ _ => .error "no network"
    tiUpdate := fun v _ => v }

/-- The built-in default model table (`DefaultModelConfigs`), in the sorted
key order `initialModel` computes. -/
def goDefaultModels : List (String × ModelConfig) :=
  [ ("anthropic", ⟨"claude", "claude-3-sonnet-20240229", "", ""⟩),
    ("ollama", ⟨"local", "llama3", "", "http://localhost:11434"⟩),
    ("openai", ⟨"openai", "gpt-3.5-turbo", "", ""⟩) ]

/-- A session in `SelectDocumentType` with the catalog loaded, the default
configuration and `openai` active (its API key still empty). -/
def mBase : Model :=
  { currentMode := .selectionMode
    formTypes := goFormTypes
    cursor := 0
    selectedIndex := -1
    currentForm := ⟨"", [], ""⟩
    answers := []
    currentQuestion := 0
    inputString := ""
    viewport := ⟨80, 20, 0, "", Option.none⟩
    gptRawOutput := ""
    content := ""
    gPressed := false
    apiKeyInput := ""
    apiBaseInput := ""
    modelNameInput := ""
    focusedInput := 0
    saveConfig := true
    config := ⟨"openai", goDefaultModels⟩
    modelCursor := 2
    modelKeys := ["anthropic", "ollama", "openai"]
    selectedModel := "openai"
    styleThemeIndex := 0
    styleThemes := [⟨"Default"⟩, ⟨"Ocean"⟩, ⟨"Sunset"⟩]
    width := 80 }

/-! ## Hosted-A client (`OpenAIClient.Complete`) -/

/-- The message of one completion choice in the provider's response. -/
structure ChatMessage where
  content : String
deriving DecidableEq, Repr

/-- One completion choice. -/
structure ChatChoice where
  message : ChatMessage
deriving DecidableEq, Repr

/-- The decoded chat-completion response body. -/
structure ChatCompletion where
  choices : List ChatChoice
deriving DecidableEq, Repr

/-- How a call to `OpenAIClient.Complete` can end: a returned text, a
returned error value, or a Go runtime panic. -/
inductive CompleteOutcome where
  | ok (text : String)
  | err (e : String)
  | panic
deriving DecidableEq, Repr

/-- Embedding of `OpenAIClient.Complete` over the abstract outcome of the
library call `c.client.Chat.Completions.New` (`Except.error` for transport
errors and non-success HTTP statuses, `Except.ok` for a decoded 2xx body).
On success the source returns `chatCompletion.Choices[0].Message.Content`
without checking that the slice is non-empty; indexing an empty Go slice is
a runtime panic, represented by `.panic`. -/
def openAIComplete (resp : Except String ChatCompletion) : CompleteOutcome :=
  match resp with
  | .error e => .err e
  | .ok chatCompletion =>
      match chatCompletion.choices with
      | [] => .panic
      | choice :: _ => .ok choice.message.content

/-! ## Section decomposition of the built document (for the claim about
`buildSelectedMarkdown`) -/

/-- Concatenation of a list of strings in order. -/
def concatStrs : List String → String
  | [] => ""
  | s :: rest => s ++ concatStrs rest

/-- The per-question sections of the built document: one `sectionBlock` per
question, in catalog order. -/
def docSections (ft : FormType) (answers : List String) : List String :=
  ft.questions.enum.map (fun p => sectionBlock answers p.1 p.2)

/-! ## Further concrete fixtures -/

/-- `ShowResult` over a one-line document in a ten-line viewport, read
offset 0. -/
def mDispShort : Model :=
  { mBase with
    currentMode := .displayMode
    content := "x"
    viewport := ⟨80, 10, 0, "", Option.none⟩ }

/-- `ShowResult` with the read offset at 5 and the double-g flag clear. -/
def mDispFive : Model :=
  { mBase with
    currentMode := .displayMode
    content := "a\nb\nc"
    viewport := ⟨80, 10, 5, "", Option.none⟩ }

/-- `SelectDocumentType` with the cursor on the item that is already
selected. -/
def mSelDup : Model := { mBase with selectedIndex := 0, cursor := 0 }

/-- `ShowResult` holding a five-character document, about to be resized. -/
def mResizeDisp : Model := { mBase with currentMode := .displayMode, content := "hello" }

/-- `AnswerQuestions` on the last question of the three-question
"Pull Request/Commit Message" type, with the default `openai` backend
active and its API key still empty. -/
def mLastQuestion : Model :=
  { mBase with
    currentMode := .questionMode
    currentForm := goFormTypes.getD 1 ⟨"", [], ""⟩
    answers := ["a", "b", ""]
    currentQuestion := 2 }

/-! ## Helper lemmas -/

theorem hasSub_append_self (sub pre : List Char) : hasSub sub (pre ++ sub) = true := by
  induction pre with
  | nil =>
      cases sub with
      | nil => rfl
      | cons c t => simp [hasSub, List.isPrefixOf_iff_prefix]
  | cons a pre ih => simp [hasSub, ih]

theorem hasSub_append_left (sub : List Char) (t : List Char) :
    ∀ l, hasSub sub l = true → hasSub sub (l ++ t) = true := by
  intro l
  induction l with
  | nil =>
      intro h
      cases sub with
      | nil =>
          cases t with
          | nil => rfl
          | cons c r => simp [hasSub]
      | cons c r => simp [hasSub] at h
  | cons a l ih =>
      intro h
      simp only [hasSub, Bool.or_eq_true] at h ⊢
      rcases h with h | h
      · left
        rw [List.isPrefixOf_iff_prefix] at h ⊢
        exact h.trans (List.prefix_append _ _)
      · right
        exact ih h

theorem containsSubstr_append_self (s t : String) : containsSubstr (s ++ t) t = true := by
  have hdata : (s ++ t).toList = s.toList ++ t.toList := String.data_append s t
  unfold containsSubstr
  rw [hdata]
  exact hasSub_append_self _ _

theorem containsSubstr_append_left (s t sub : String) (h : containsSubstr s sub = true) :
    containsSubstr (s ++ t) sub = true := by
  have hdata : (s ++ t).toList = s.toList ++ t.toList := String.data_append s t
  unfold containsSubstr at h ⊢
  rw [hdata]
  exact hasSub_append_left _ _ _ h

theorem buildMarkdownLoop_eq_sections (answers : List String) (qs : List String) :
    ∀ n, buildMarkdownLoop answers n qs =
      concatStrs ((qs.enumFrom n).map (fun p => sectionBlock answers p.1 p.2)) := by
  induction qs with
  | nil => intro n; rfl
  | cons q qs ih =>
      intro n
      simp only [buildMarkdownLoop, List.enumFrom, List.map, concatStrs, ih (n + 1)]

/-! ## Claim theorems -/

/-- C10: in every mode and for every session state, a "q" keypress is
intercepted by the global key handler of `Update` and returns `tea.Quit`
with the state unchanged — so the letter "q" can never be appended to an
answer's input buffer, an API key, a base URL, or a model name. -/
theorem c10_q_always_quits (env : Env) (m : Model) :
    (update env m (.key (.runes "q"))).cmd = Cmd.quit ∧
    (update env m (.key (.runes "q"))).model = m ∧
    (update env m (.key (.runes "q"))).model.inputString = m.inputString ∧
    (update env m (.key (.runes "q"))).model.apiKeyInput = m.apiKeyInput ∧
    (update env m (.key (.runes "q"))).model.apiBaseInput = m.apiBaseInput ∧
    (update env m (.key (.runes "q"))).model.modelNameInput = m.modelNameInput := by
  refine ⟨rfl, rfl, rfl, rfl, rfl, rfl⟩

/-- C8: `OpenAIClient.Complete` returns the first completion's text on a
successful response with a non-empty choice list, and turns every
library-reported failure (transport error or non-success HTTP status) into
an error value; but a successful response whose choice list is empty hits
the unguarded `Choices[0]` index and panics instead of returning an error. -/
theorem c8_openai_complete_outcomes :
    openAIComplete (Except.ok ⟨[]⟩) = CompleteOutcome.panic ∧
    (∀ e, openAIComplete (Except.error e) = CompleteOutcome.err e) ∧
    (∀ choice rest, openAIComplete (Except.ok ⟨choice :: rest⟩) =
      CompleteOutcome.ok choice.message.content) :=
  ⟨rfl, fun _ => rfl, fun _ _ => rfl⟩

/-- C4: a page-down in `ShowResult` over a one-line document in a ten-line
viewport drives the read offset to `totalLines - height = -9`, below the
claimed lower bound 0 (the `pgdown` branch clamps only to `maxYOffset`,
which is negative when the content is shorter than the viewport). -/
theorem c4_pgdown_offset_goes_negative :
    (update envT mDispShort (.key .pgDown)).model.viewport.yOffset = -9 ∧
    (update envT mDispShort (.key .pgDown)).model.viewport.yOffset < 0 := by
  exact ⟨by decide, by decide⟩

/-- C9: every resize recomputes the viewport dimensions from the terminal
size minus the fixed margins (4 columns, 8 rows), clamped to the minimums
40 and 10, and re-runs the markdown renderer over the stored document text
exactly when the state is `ShowResult`; but the word-wrap width passed to
the renderer is the document text's length (`glamour.WithWordWrap(len(md))`),
not the new viewport width: resizing the five-character document to
viewport widths 96 and 196 calls the renderer with word-wrap 5 both times. -/
theorem c9_resize_dims_and_render :
    (∀ (env : Env) (m : Model) (w h : Int),
      (update env m (.windowSize w h)).model.viewport.width = max 40 (w - 4) ∧
      (update env m (.windowSize w h)).model.viewport.height = max 10 (h - 8) ∧
      (update env m (.windowSize w h)).model.viewport.lastRender =
        (if m.currentMode = .displayMode then some (m.content, m.content.length)
         else m.viewport.lastRender)) ∧
    (update envT mResizeDisp (.windowSize 100 30)).model.viewport.width = 96 ∧
    (update envT mResizeDisp (.windowSize 100 30)).model.viewport.lastRender
      = some ("hello", 5) ∧
    (update envT mResizeDisp (.windowSize 200 60)).model.viewport.width = 196 ∧
    (update envT mResizeDisp (.windowSize 200 60)).model.viewport.lastRender
      = some ("hello", 5) ∧
    (update envT mBase (.windowSize 100 30)).model.viewport.lastRender = Option.none := by
  refine ⟨fun env m w h => ?_, by decide, by decide, by decide, by decide, by decide⟩
  by_cases hm : m.currentMode = .displayMode <;>
    simp only [update, resizeUpdate, renderMarkdownToViewport, hm, if_true, if_false,
      reduceIte] <;>
    refine ⟨?_, ?_, ?_⟩ <;>
    simp [Int.max_def] <;> split_ifs <;> first | rfl | omega

/-- C2 counterexample: the self-hosted base address
`http://example.com/api/chat` contains neither well-known local default,
so the claim as stated requires the OpenAI-compatible dialect for it; the
code appends the `/v1/chat/completions` suffix but then selects the wire
dialect by searching the *final* URL for `/api/chat`, so this address is
sent the native (Ollama) request body instead. -/
theorem c2_counterexample_api_chat_address :
    containsSubstr (trimSuffixSlash "http://example.com/api/chat") "localhost:11434" = false ∧
    containsSubstr (trimSuffixSlash "http://example.com/api/chat") "127.0.0.1:11434" = false ∧
    localResolveBaseURL "http://example.com/api/chat"
      = "http://example.com/api/chat/v1/chat/completions" ∧
    localUsesNativeDialect "http://example.com/api/chat" = true := by
  refine ⟨by decide, by decide, by decide, by decide⟩

/-- C2 (amended): after stripping a trailing slash, an address containing a
well-known local default posts to `<address>/api/chat` with the native
dialect; any other address gets the OpenAI-compatible path suffix appended
only if none of the three existing-suffix forms is present (only
`/chat/completions` when the address ends in `/v1`), and is posted with
the OpenAI-compatible request shape unless the resulting URL contains
`/api/chat` (as happens when the supplied address itself contains it), in
which case the native dialect is used.  In particular
`http://localhost:11434` posts to `http://localhost:11434/api/chat` and
`http://example.com:8000` posts to
`http://example.com:8000/v1/chat/completions`. -/
theorem c2_local_endpoint_resolution (base : String) :
    ((containsSubstr (trimSuffixSlash base) "localhost:11434"
        || containsSubstr (trimSuffixSlash base) "127.0.0.1:11434") = true →
      localResolveBaseURL base = trimSuffixSlash base ++ "/api/chat" ∧
      localUsesNativeDialect base = true) ∧
    ((containsSubstr (trimSuffixSlash base) "localhost:11434"
        || containsSubstr (trimSuffixSlash base) "127.0.0.1:11434") = false →
      localResolveBaseURL base =
        (if containsSubstr (trimSuffixSlash base) "/v1/chat/completions" = true then
          trimSuffixSlash base
        else if containsSubstr (trimSuffixSlash base) "/chat/completions" = true then
          trimSuffixSlash base
        else if hasSuffixStr (trimSuffixSlash base) "/v1" = true then
          trimSuffixSlash base ++ "/chat/completions"
        else
          trimSuffixSlash base ++ "/v1/chat/completions") ∧
      (containsSubstr (trimSuffixSlash base) "/api/chat" = true →
        localUsesNativeDialect base = true) ∧
      (containsSubstr (localResolveBaseURL base) "/api/chat" = false →
        localUsesNativeDialect base = false)) ∧
    (localResolveBaseURL "http://localhost:11434" = "http://localhost:11434/api/chat" ∧
      localUsesNativeDialect "http://localhost:11434" = true) ∧
    (localResolveBaseURL "http://example.com:8000"
        = "http://example.com:8000/v1/chat/completions" ∧
      localUsesNativeDialect "http://example.com:8000" = false) := by
  refine ⟨?_, ?_, ⟨by decide, by decide⟩, ⟨by decide, by decide⟩⟩
  · intro h
    have hurl : localResolveBaseURL base = trimSuffixSlash base ++ "/api/chat" := by
      unfold localResolveBaseURL
      simp [h]
    refine ⟨hurl, ?_⟩
    unfold localUsesNativeDialect
    rw [hurl]
    exact containsSubstr_append_self _ _
  · intro h
    have hurl : localResolveBaseURL base =
        (if containsSubstr (trimSuffixSlash base) "/v1/chat/completions" = true then
          trimSuffixSlash base
        else if containsSubstr (trimSuffixSlash base) "/chat/completions" = true then
          trimSuffixSlash base
        else if hasSuffixStr (trimSuffixSlash base) "/v1" = true then
          trimSuffixSlash base ++ "/chat/completions"
        else
          trimSuffixSlash base ++ "/v1/chat/completions") := by
      unfold localResolveBaseURL
      simp only [h, Bool.false_eq_true, if_false]
    refine ⟨hurl, ?_, ?_⟩
    · intro hapi
      unfold localUsesNativeDialect
      rw [hurl]
      split_ifs <;> first
        | exact hapi
        | exact containsSubstr_append_left _ _ _ hapi
    · intro hnone
      unfold localUsesNativeDialect
      exact hnone

/-- C2 witness: the amended statement applied to the two concrete
addresses of the claim. -/
theorem c2_local_endpoint_resolution_witness :
    (localResolveBaseURL "http://localhost:11434" = "http://localhost:11434/api/chat" ∧
      localUsesNativeDialect "http://localhost:11434" = true) ∧
    (localResolveBaseURL "http://example.com:8000"
        = "http://example.com:8000/v1/chat/completions" ∧
      localUsesNativeDialect "http://example.com:8000" = false) :=
  ⟨(c2_local_endpoint_resolution "http://localhost:11434").1 (by decide),
    ⟨((c2_local_endpoint_resolution "http://example.com:8000").2.1 (by decide)).1.trans
        (by decide),
      ((c2_local_endpoint_resolution "http://example.com:8000").2.1 (by decide)).2.2
        (by decide)⟩⟩

/-- C3: for every document type and every answer list, the built document
is the heading naming the document type followed by the concatenation of
exactly one numbered section per question, in definition order; the number
of sections equals the number of questions regardless of the answer list,
and section `i` is the sub-heading `## i+1. question` paired with its
corresponding answer (empty answers contribute no body, answers beyond the
list none at all). -/
theorem c3_build_document_structure (ft : FormType) (answers : List String) :
    buildDoc ft answers = "# " ++ ft.name ++ "\n\n" ++ concatStrs (docSections ft answers) ∧
    (docSections ft answers).length = ft.questions.length ∧
    (∀ i, i < ft.questions.length →
      (docSections ft answers).getD i "" =
        "## " ++ toString (i + 1) ++ ". " ++ ft.questions.getD i "" ++ "\n\n" ++
          (if i < answers.length then answers.getD i "" ++ "\n\n" else "")) := by
  refine ⟨?_, ?_, ?_⟩
  · unfold buildDoc docSections List.enum
    rw [buildMarkdownLoop_eq_sections]
  · unfold docSections
    simp
  · intro i hi
    unfold docSections sectionBlock List.enum
    have hq : ft.questions[i]? = some (ft.questions.getD i "") := by
      rw [List.getElem?_eq_getElem hi]
      rw [List.getD_eq_getElem?_getD, List.getElem?_eq_getElem hi]
      rfl
    rw [List.getD_eq_getElem?_getD, List.getElem?_map, List.getElem?_enumFrom, hq]
    simp only [Option.map_some', Option.getD_some, Nat.zero_add]

/-- C3 witness: the structure theorem applied to the three-question
"Pull Request/Commit Message" type with one answer skipped. -/
theorem c3_build_document_structure_witness :
    ((docSections (goFormTypes.getD 1 ⟨"", [], ""⟩) ["a", "", "c"]).length = 3) ∧
    ((docSections (goFormTypes.getD 1 ⟨"", [], ""⟩) ["a", "", "c"]).getD 1 ""
      = "## 2. Why did you do it?\n\n\n\n") :=
  ⟨((c3_build_document_structure (goFormTypes.getD 1 ⟨"", [], ""⟩) ["a", "", "c"]).2.1).trans
      (by decide),
    (((c3_build_document_structure (goFormTypes.getD 1 ⟨"", [], ""⟩) ["a", "", "c"]).2.2
        1 (by decide))).trans (by decide)⟩

/-- C5 counterexample: from `ShowResult` with read offset 5, after "g"
followed by the intervening scroll key "up" the pending flag is still
armed (the claim says any other key disarms it), so the next "g" jumps the
offset to 0 instead of leaving it at 4. -/
theorem c5_counterexample_intervening_key_keeps_flag :
    (applyKeys envT mDispFive [.runes "g", .up]).gPressed = true ∧
    (applyKeys envT mDispFive [.runes "g", .up]).viewport.yOffset = 4 ∧
    (applyKeys envT mDispFive [.runes "g", .up, .runes "g"]).viewport.yOffset = 0 := by
  refine ⟨by decide, by decide, by decide⟩

/-- C5 (amended): in `ShowResult`, a single "g" press leaves the scroll
offset unchanged and arms the pending flag; a "g" press while the flag is
armed sets the offset to 0 and disarms it; but among the other keys only
the bottom command "G" disarms the flag — the scroll and copy keys leave
it as it was, so a "g" after an intervening scroll key still jumps to the
top. -/
theorem c5_double_g_behaviour (env : Env) (m : Model)
    (hm : m.currentMode = .displayMode) :
    (m.gPressed = false →
      (update env m (.key (.runes "g"))).model.viewport.yOffset = m.viewport.yOffset ∧
      (update env m (.key (.runes "g"))).model.gPressed = true) ∧
    (m.gPressed = true →
      (update env m (.key (.runes "g"))).model.viewport.yOffset = 0 ∧
      (update env m (.key (.runes "g"))).model.gPressed = false) ∧
    ((update env m (.key (.runes "G"))).model.gPressed = false) ∧
    (∀ k, k ∈ ([.up, .down, .runes "k", .runes "j", .pgUp, .pgDown, .ctrlY] : List Key) →
      (update env m (.key k)).model.gPressed = m.gPressed) := by
  refine ⟨?_, ?_, ?_, ?_⟩
  · intro hg
    simp [update, keyString, hm, updateDisplayMode, stepOf, hg]
  · intro hg
    simp [update, keyString, hm, updateDisplayMode, stepOf, hg]
  · simp [update, keyString, hm, updateDisplayMode, stepOf]
  · intro k hk
    fin_cases hk <;>
      simp [update, keyString, hm, updateDisplayMode, stepOf] <;>
      split_ifs <;> rfl

/-- C5 witness: the amended statement applied to the concrete armed and
disarmed `ShowResult` fixtures. -/
theorem c5_double_g_behaviour_witness :
    ((update envT mDispFive (.key (.runes "g"))).model.viewport.yOffset
        = mDispFive.viewport.yOffset ∧
      (update envT mDispFive (.key (.runes "g"))).model.gPressed = true) ∧
    ((update envT mDispFive (.key (.runes "G"))).model.gPressed = false) ∧
    ((update envT mDispFive (.key .up)).model.gPressed = mDispFive.gPressed) :=
  ⟨(c5_double_g_behaviour envT mDispFive rfl).1 rfl,
    (c5_double_g_behaviour envT mDispFive rfl).2.2.1,
    (c5_double_g_behaviour envT mDispFive rfl).2.2.2 .up (by decide)⟩

theorem navStep_selection (env : Env) (m : Model) (k : Key)
    (hk : isNavKey k = true) (hm : m.currentMode = .selectionMode)
    (h0 : 0 ≤ m.cursor) (h1 : m.cursor < (m.formTypes.length : Int)) :
    (update env m (.key k)).model.currentMode = .selectionMode ∧
    (update env m (.key k)).model.formTypes = m.formTypes ∧
    0 ≤ (update env m (.key k)).model.cursor ∧
    (update env m (.key k)).model.cursor < (m.formTypes.length : Int) := by
  have hcase : k = .up ∨ k = .down ∨ k = .runes "k" ∨ k = .runes "j" := by
    cases k <;> simp_all [isNavKey]
  rcases hcase with rfl | rfl | rfl | rfl <;>
    refine ⟨?_, ?_, ?_, ?_⟩ <;>
    simp [update, keyString, hm, updateSelectionMode, stepOf] <;>
    (try split_ifs) <;> (try dsimp only) <;> first | assumption | rfl | omega

theorem navStep_modelSelect (env : Env) (m : Model) (k : Key)
    (hk : isNavKey k = true) (hm : m.currentMode = .modelSelectMode)
    (h0 : 0 ≤ m.modelCursor) (h1 : m.modelCursor < (m.modelKeys.length : Int)) :
    (update env m (.key k)).model.currentMode = .modelSelectMode ∧
    (update env m (.key k)).model.modelKeys = m.modelKeys ∧
    0 ≤ (update env m (.key k)).model.modelCursor ∧
    (update env m (.key k)).model.modelCursor < (m.modelKeys.length : Int) := by
  have hcase : k = .up ∨ k = .down ∨ k = .runes "k" ∨ k = .runes "j" := by
    cases k <;> simp_all [isNavKey]
  rcases hcase with rfl | rfl | rfl | rfl <;>
    refine ⟨?_, ?_, ?_, ?_⟩ <;>
    simp [update, keyString, hm, updateModelSelectMode, stepOf] <;>
    (try split_ifs) <;> (try dsimp only) <;> first | assumption | rfl | omega

theorem navStep_styleSelect (env : Env) (m : Model) (k : Key)
    (hk : isNavKey k = true) (hm : m.currentMode = .styleSelectMode)
    (h0 : 0 ≤ m.styleThemeIndex) (h1 : m.styleThemeIndex < (m.styleThemes.length : Int)) :
    (update env m (.key k)).model.currentMode = .styleSelectMode ∧
    (update env m (.key k)).model.styleThemes = m.styleThemes ∧
    0 ≤ (update env m (.key k)).model.styleThemeIndex ∧
    (update env m (.key k)).model.styleThemeIndex < (m.styleThemes.length : Int) := by
  have hcase : k = .up ∨ k = .down ∨ k = .runes "k" ∨ k = .runes "j" := by
    cases k <;> simp_all [isNavKey]
  rcases hcase with rfl | rfl | rfl | rfl <;>
    refine ⟨?_, ?_, ?_, ?_⟩ <;>
    simp [update, keyString, hm, updateStyleSelectMode, stepOf] <;>
    (try split_ifs) <;> (try dsimp only) <;> first | assumption | rfl | omega

/-- C6: on each list-cursor screen — document-type selection, backend
selection and theme selection — every sequence of up/down navigation
commands (arrow or vi-style) starting from an in-range cursor over a
non-empty list keeps the cursor within `[0, len(list)-1]`, and leaves the
list itself unchanged. -/
theorem c6_nav_cursor_stays_in_bounds (env : Env) :
    (∀ ks m, (∀ k ∈ ks, isNavKey k = true) → Model.currentMode m = .selectionMode →
      0 ≤ Model.cursor m → Model.cursor m < (m.formTypes.length : Int) →
      0 ≤ (applyKeys env m ks).cursor ∧
      (applyKeys env m ks).cursor < (m.formTypes.length : Int) ∧
      (applyKeys env m ks).formTypes = m.formTypes) ∧
    (∀ ks m, (∀ k ∈ ks, isNavKey k = true) → Model.currentMode m = .modelSelectMode →
      0 ≤ Model.modelCursor m → Model.modelCursor m < (m.modelKeys.length : Int) →
      0 ≤ (applyKeys env m ks).modelCursor ∧
      (applyKeys env m ks).modelCursor < (m.modelKeys.length : Int) ∧
      (applyKeys env m ks).modelKeys = m.modelKeys) ∧
    (∀ ks m, (∀ k ∈ ks, isNavKey k = true) → Model.currentMode m = .styleSelectMode →
      0 ≤ Model.styleThemeIndex m → Model.styleThemeIndex m < (m.styleThemes.length : Int) →
      0 ≤ (applyKeys env m ks).styleThemeIndex ∧
      (applyKeys env m ks).styleThemeIndex < (m.styleThemes.length : Int) ∧
      (applyKeys env m ks).styleThemes = m.styleThemes) := by
  refine ⟨?_, ?_, ?_⟩
  · intro ks
    induction ks with
    | nil => exact fun m _ _ h0 h1 => ⟨h0, h1, rfl⟩
    | cons k ks ih =>
        intro m hks hm h0 h1
        have hstep := navStep_selection env m k (hks k (List.mem_cons_self k ks)) hm h0 h1
        have happ : applyKeys env m (k :: ks) =
            applyKeys env (update env m (.key k)).model ks := rfl
        rw [happ]
        have hrest : ∀ k2 ∈ ks, isNavKey k2 = true :=
          fun k2 h2 => hks k2 (List.mem_cons_of_mem _ h2)
        have hlen : ((update env m (.key k)).model.formTypes.length : Int)
            = (m.formTypes.length : Int) := by rw [hstep.2.1]
        have hrec := ih (update env m (.key k)).model hrest hstep.1 hstep.2.2.1
          (by rw [hlen]; exact hstep.2.2.2)
        exact ⟨hrec.1, by rw [← hlen]; exact hrec.2.1, by rw [hrec.2.2, hstep.2.1]⟩
  · intro ks
    induction ks with
    | nil => exact fun m _ _ h0 h1 => ⟨h0, h1, rfl⟩
    | cons k ks ih =>
        intro m hks hm h0 h1
        have hstep := navStep_modelSelect env m k (hks k (List.mem_cons_self k ks)) hm h0 h1
        have happ : applyKeys env m (k :: ks) =
            applyKeys env (update env m (.key k)).model ks := rfl
        rw [happ]
        have hrest : ∀ k2 ∈ ks, isNavKey k2 = true :=
          fun k2 h2 => hks k2 (List.mem_cons_of_mem _ h2)
        have hlen : ((update env m (.key k)).model.modelKeys.length : Int)
            = (m.modelKeys.length : Int) := by rw [hstep.2.1]
        have hrec := ih (update env m (.key k)).model hrest hstep.1 hstep.2.2.1
          (by rw [hlen]; exact hstep.2.2.2)
        exact ⟨hrec.1, by rw [← hlen]; exact hrec.2.1, by rw [hrec.2.2, hstep.2.1]⟩
  · intro ks
    induction ks with
    | nil => exact fun m _ _ h0 h1 => ⟨h0, h1, rfl⟩
    | cons k ks ih =>
        intro m hks hm h0 h1
        have hstep := navStep_styleSelect env m k (hks k (List.mem_cons_self k ks)) hm h0 h1
        have happ : applyKeys env m (k :: ks) =
            applyKeys env (update env m (.key k)).model ks := rfl
        rw [happ]
        have hrest : ∀ k2 ∈ ks, isNavKey k2 = true :=
          fun k2 h2 => hks k2 (List.mem_cons_of_mem _ h2)
        have hlen : ((update env m (.key k)).model.styleThemes.length : Int)
            = (m.styleThemes.length : Int) := by rw [hstep.2.1]
        have hrec := ih (update env m (.key k)).model hrest hstep.1 hstep.2.2.1
          (by rw [hlen]; exact hstep.2.2.2)
        exact ⟨hrec.1, by rw [← hlen]; exact hrec.2.1, by rw [hrec.2.2, hstep.2.1]⟩

/-- C6 witness: the invariant applied on each of the three screens to a
concrete navigation sequence from the default session. -/
theorem c6_nav_cursor_stays_in_bounds_witness :
    (0 ≤ (applyKeys envT mBase [.down, .runes "j", .up, .down]).cursor ∧
      (applyKeys envT mBase [.down, .runes "j", .up, .down]).cursor
        < (mBase.formTypes.length : Int) ∧
      (applyKeys envT mBase [.down, .runes "j", .up, .down]).formTypes
        = mBase.formTypes) ∧
    (0 ≤ (applyKeys envT { mBase with currentMode := .modelSelectMode }
        [.up, .up, .runes "k"]).modelCursor ∧
      (applyKeys envT { mBase with currentMode := .modelSelectMode }
        [.up, .up, .runes "k"]).modelCursor
        < (mBase.modelKeys.length : Int) ∧
      (applyKeys envT { mBase with currentMode := .modelSelectMode }
        [.up, .up, .runes "k"]).modelKeys = mBase.modelKeys) ∧
    (0 ≤ (applyKeys envT { mBase with currentMode := .styleSelectMode }
        [.down, .down, .down]).styleThemeIndex ∧
      (applyKeys envT { mBase with currentMode := .styleSelectMode }
        [.down, .down, .down]).styleThemeIndex
        < (mBase.styleThemes.length : Int) ∧
      (applyKeys envT { mBase with currentMode := .styleSelectMode }
        [.down, .down, .down]).styleThemes = mBase.styleThemes) :=
  ⟨(c6_nav_cursor_stays_in_bounds envT).1 [.down, .runes "j", .up, .down] mBase
      (by decide) rfl (by decide) (by decide),
    (c6_nav_cursor_stays_in_bounds envT).2.1 [.up, .up, .runes "k"]
      { mBase with currentMode := .modelSelectMode } (by decide) rfl (by decide) (by decide),
    (c6_nav_cursor_stays_in_bounds envT).2.2 [.down, .down, .down]
      { mBase with currentMode := .styleSelectMode } (by decide) rfl (by decide) (by decide)⟩

/-- C7 counterexample: a confirm keypress in `SelectDocumentType` with the
cursor on the document type that is already selected does not initialize a
fresh answer sequence or move to `AnswerQuestions`; it deselects the item
(`selectedIndex` becomes -1) and stays in `SelectDocumentType`, leaving
the answers and the question index untouched. -/
theorem c7_counterexample_confirm_on_selected :
    (update envT mSelDup (.key .enter)).model.currentMode = .selectionMode ∧
    (update envT mSelDup (.key .enter)).model.currentMode ≠ .questionMode ∧
    (update envT mSelDup (.key .enter)).model.selectedIndex = -1 ∧
    (update envT mSelDup (.key .enter)).model.answers = mSelDup.answers := by
  refine ⟨by decide, by decide, by decide, by decide⟩

/-- C7 (amended): in `SelectDocumentType`, a confirm keypress (space or
enter) with the cursor on a document type *other than the currently
selected one* initializes a fresh answer sequence whose length equals that
type's question count, resets the question index to zero, records the
selection and moves to `AnswerQuestions`; a confirm on the already-selected
type instead deselects it and remains in `SelectDocumentType` with answers
and question index unchanged. -/
theorem c7_confirm_starts_questionnaire (env : Env) (m : Model) (k : Key)
    (hm : m.currentMode = .selectionMode)
    (hk : keyString k = " " ∨ keyString k = "enter")
    (h0 : 0 ≤ m.cursor) (h1 : m.cursor < (m.formTypes.length : Int)) :
    (m.selectedIndex ≠ m.cursor →
      (update env m (.key k)).model.currentMode = .questionMode ∧
      (update env m (.key k)).model.currentForm = getFormType m.formTypes m.cursor ∧
      (update env m (.key k)).model.answers
        = List.replicate (getFormType m.formTypes m.cursor).questions.length "" ∧
      (update env m (.key k)).model.answers.length
        = (getFormType m.formTypes m.cursor).questions.length ∧
      (update env m (.key k)).model.currentQuestion = 0 ∧
      (update env m (.key k)).model.selectedIndex = m.cursor) ∧
    (m.selectedIndex = m.cursor →
      (update env m (.key k)).model.currentMode = .selectionMode ∧
      (update env m (.key k)).model.selectedIndex = -1 ∧
      (update env m (.key k)).model.answers = m.answers ∧
      (update env m (.key k)).model.currentQuestion = m.currentQuestion) := by
  rcases hk with hk | hk <;>
    constructor <;>
    intro hsel <;>
    simp [update, hk, hm, updateSelectionMode, stepOf, hsel]

/-- C7 witness: confirming from the default session (nothing selected,
cursor on the first type) starts the five-question incident questionnaire;
confirming on an already-selected item deselects it. -/
theorem c7_confirm_starts_questionnaire_witness :
    ((update envT mBase (.key .enter)).model.currentMode = .questionMode ∧
      (update envT mBase (.key .enter)).model.currentForm
        = getFormType mBase.formTypes mBase.cursor ∧
      (update envT mBase (.key .enter)).model.answers
        = List.replicate (getFormType mBase.formTypes mBase.cursor).questions.length "" ∧
      (update envT mBase (.key .enter)).model.answers.length
        = (getFormType mBase.formTypes mBase.cursor).questions.length ∧
      (update envT mBase (.key .enter)).model.currentQuestion = 0 ∧
      (update envT mBase (.key .enter)).model.selectedIndex = mBase.cursor) ∧
    ((update envT mSelDup (.key .space)).model.currentMode = .selectionMode ∧
      (update envT mSelDup (.key .space)).model.selectedIndex = -1 ∧
      (update envT mSelDup (.key .space)).model.answers = mSelDup.answers ∧
      (update envT mSelDup (.key .space)).model.currentQuestion
        = mSelDup.currentQuestion) :=
  ⟨(c7_confirm_starts_questionnaire envT mBase .enter rfl (Or.inr rfl)
      (by decide) (by decide)).1 (by decide),
    (c7_confirm_starts_questionnaire envT mSelDup .space rfl (Or.inl rfl)
      (by decide) (by decide)).2 (by decide)⟩

/-- C1: confirming the final question in `AnswerQuestions` while the active
backend configuration is missing its required credential (hosted families)
or base address (self-hosted) moves the session to `ConfigureBackend`
(`apiKeyInputMode`), launches no backend request, and returns no quit
command — the process carries on. -/
theorem c1_missing_credential_routes_to_configure (env : Env) (m : Model)
    (hm : m.currentMode = .questionMode)
    (hlast : ¬ m.currentQuestion < m.currentForm.questions.length - 1)
    (hmiss : missingCredential (lookupModel m.config m.config.activeModel)) :
    (update env m (.key .enter)).model.currentMode = .apiKeyInputMode ∧
    (update env m (.key .enter)).requested = false ∧
    (update env m (.key .enter)).cmd = Cmd.none := by
  refine ⟨?_, ?_, ?_⟩ <;>
    simp [update, keyString, hm, updateQuestionMode, handleFormCompletion, hlast, hmiss]

/-- C1 witness: the routing applied on the last question of the
three-question commit-message type with the default `openai` backend active
and its API key empty. -/
theorem c1_missing_credential_routes_to_configure_witness :
    (update envT mLastQuestion (.key .enter)).model.currentMode = .apiKeyInputMode ∧
    (update envT mLastQuestion (.key .enter)).requested = false ∧
    (update envT mLastQuestion (.key .enter)).cmd = Cmd.none :=
  c1_missing_credential_routes_to_configure envT mLastQuestion rfl
    (by decide) (by decide)

end TicketDuck
